import Mathlib

/-!
# Verification of the AfterShip in-transit export pipeline

Shallow embedding of `scripts/aftership_intransit_export.py`: the field
extractor (`get_all_custom_fields`, `extract_last_checkpoint`), the identity
and dedup gate (`key_for_tracking`, `should_skip`, `mark_handled`), the
normalizer (`normalize`), and the pure data flow of `main` (`runMain`).

Python values coming back from `response.json()` are modelled by the
inductive type `JVal`; Python dictionaries are association lists with
first-match lookup and update-or-append insertion, matching dict semantics
on the unique-key dictionaries produced by JSON parsing.  Python truthiness
is `jvTruthy`, `x or y` is `jvOr`, `str(x)` is `pyStr` (for nested
containers the rendering approximates `repr`, which no theorem depends on).
Fallible Python expressions (attribute errors from `.strip()` on a
non-string, `TypeError` from `" ".join` on non-strings, unhashable dict
keys, and naive/aware datetime subtraction) are modelled in `Except Unit`.

`datetime` values are modelled as `PyDatetime`: a timezone-awareness flag
plus an integer count of seconds (microseconds are not modelled; every
claim is stated at whole-second granularity).  `datetime.fromisoformat` is
modelled by `fromIso` on the grammar
`YYYY-MM-DD[ (T or space) HH:MM[:SS][+HH:MM | -HH:MM | Z]]`, a subset of
the full CPython grammar that covers every timestamp this program writes
(`now.isoformat()` of an aware UTC datetime) plus date-only and
offset-free (naive) forms.
-/

namespace Aftership

/-- A JSON-shaped Python value as returned by `response.json()`. -/
inductive JVal where
  | null : JVal
  | bool : Bool → JVal
  | int : Int → JVal
  | str : String → JVal
  | list : List JVal → JVal
  | obj : List (String × JVal) → JVal

/-- A snapshot / dictionary: string keys to JSON values. -/
abbrev Snap := List (String × JVal)

/-- First-match lookup, the semantics of `d[k]` / `d.get(k)` on a
unique-key Python dict. -/
def dictGet {α : Type} : List (String × α) → String → Option α
  | [], _ => none
  | (k, v) :: rest, key => if k = key then some v else dictGet rest key

/-- `d.get(k, dflt)`. -/
def dictGetD {α : Type} (d : List (String × α)) (key : String) (dflt : α) : α :=
  (dictGet d key).getD dflt

/-- `d[k] = v`: update the existing entry in place, else append. -/
def dictSet {α : Type} : List (String × α) → String → α → List (String × α)
  | [], k, v => [(k, v)]
  | (k2, v2) :: rest, k, v =>
    if k2 = k then (k2, v) :: rest else (k2, v2) :: dictSet rest k v

/-- Python truthiness of a JSON value. -/
def jvTruthy : JVal → Bool
  | JVal.null => false
  | JVal.bool b => b
  | JVal.int n => n != 0
  | JVal.str s => s != ""
  | JVal.list xs => !xs.isEmpty
  | JVal.obj kvs => !kvs.isEmpty

/-- Python `x or y`. -/
def jvOr (x y : JVal) : JVal := if jvTruthy x then x else y

/-- `tracking.get(k)`: absent keys give `None`. -/
def tGet (t : Snap) (k : String) : JVal := (dictGet t k).getD JVal.null

/-- Is the value a string? -/
def JVal.isStr : JVal → Bool
  | JVal.str _ => true
  | _ => false

/-- Is the value a dict? -/
def JVal.isObj : JVal → Bool
  | JVal.obj _ => true
  | _ => false

/-- Python `repr` of a string, single-quote style (approximate: CPython
switches quote characters adaptively; no theorem depends on this text). -/
def reprQuote (s : String) : String :=
  let q := String.singleton (Char.ofNat 39)
  let esc := String.join (s.data.map fun c =>
    if c = Char.ofNat 39 then "\\" ++ q
    else if c = Char.ofNat 92 then "\\\\"
    else if c = Char.ofNat 10 then "\\n"
    else if c = Char.ofNat 13 then "\\r"
    else if c = Char.ofNat 9 then "\\t"
    else String.singleton c)
  q ++ esc ++ q

mutual

/-- Python `repr` of a JSON value (used by `str` on containers). -/
def pyRepr : JVal → String
  | JVal.null => "None"
  | JVal.bool b => if b then "True" else "False"
  | JVal.int n => toString n
  | JVal.str s => reprQuote s
  | JVal.list xs => "[" ++ String.intercalate ", " (pyReprList xs) ++ "]"
  | JVal.obj kvs => "\x7b" ++ String.intercalate ", " (pyReprObj kvs) ++ "\x7d"

/-- `repr` of each element of a list. -/
def pyReprList : List JVal → List String
  | [] => []
  | v :: vs => pyRepr v :: pyReprList vs

/-- `repr` of each `key: value` entry of a dict. -/
def pyReprObj : List (String × JVal) → List String
  | [] => []
  | (k, v) :: kvs => (reprQuote k ++ ": " ++ pyRepr v) :: pyReprObj kvs

end

/-- Python `str(x)`: identity on strings, `repr`-like otherwise. -/
def pyStr (v : JVal) : String :=
  match v with
  | JVal.str s => s
  | v => pyRepr v

/-- `"" if v is None else str(v)` from `get_all_custom_fields`. -/
def stringifyVal (v : JVal) : String :=
  match v with
  | JVal.null => ""
  | v => pyStr v

/-- The environment-derived configuration of the script: `AFTERSHIP_TAG`,
`ORDER_ID_CUSTOM_FIELD`, `DEDUP_ENABLED`, `DEDUP_DAYS`. -/
structure Config where
  tag : String
  orderIdField : String
  dedupEnabled : Bool
  dedupDays : Int

/-- The dict branch of `get_all_custom_fields`:
`{str(k): "" if v is None else str(v) for k, v in cf.items()}`. -/
def cfFromPairs : List (String × JVal) → List (String × String) → List (String × String)
  | [], acc => acc
  | (k, v) :: rest, acc => cfFromPairs rest (dictSet acc k (stringifyVal v))

/-- The list branch of `get_all_custom_fields`: skip non-dict items and
items whose `name` is absent or `None`; `out[str(name)] = "" if val is
None else str(val)`. -/
def cfFromList : List JVal → List (String × String) → List (String × String)
  | [], acc => acc
  | item :: rest, acc =>
    match item with
    | JVal.obj kvs =>
      match dictGet kvs "name" with
      | none => cfFromList rest acc
      | some JVal.null => cfFromList rest acc
      | some nameV =>
        cfFromList rest (dictSet acc (pyStr nameV) (stringifyVal ((dictGet kvs "value").getD JVal.null)))
    | _ => cfFromList rest acc

/-- `get_all_custom_fields(tracking)`: normalize either custom-fields
representation to a flat `dict[str, str]`. -/
def get_all_custom_fields (t : Snap) : List (String × String) :=
  match tGet t "custom_fields" with
  | JVal.obj kvs => cfFromPairs kvs []
  | JVal.list items => cfFromList items []
  | _ => []

/-- The `checkpoints` fallback of `extract_last_checkpoint`:
`cps = tracking.get("checkpoints") or []`; if it is a non-empty list,
return its last element when that is a dict, else `{}`. -/
def extractFromSeq (t : Snap) : Snap :=
  match jvOr (tGet t "checkpoints") (JVal.list []) with
  | JVal.list cps =>
    match cps.getLast? with
    | some (JVal.obj kvs) => kvs
    | some _ => []
    | none => []
  | _ => []

/-- `extract_last_checkpoint(tracking)`:
`last_cp = tracking.get("last_checkpoint") or tracking.get("latest_checkpoint") or {}`,
returned when it is a non-empty dict, else the `checkpoints` fallback. -/
def extract_last_checkpoint (t : Snap) : Snap :=
  match jvOr (tGet t "last_checkpoint") (jvOr (tGet t "latest_checkpoint") (JVal.obj [])) with
  | JVal.obj kvs => if kvs.isEmpty then extractFromSeq t else kvs
  | _ => extractFromSeq t

/-- `key_for_tracking(tracking)`:
`f"{tag}/{slug}/{tn}"` with `tag = tracking.get("tag") or AFTERSHIP_TAG or "UNKNOWN"`,
`slug = tracking.get("slug") or ""`, `tn = tracking.get("tracking_number") or ""`. -/
def key_for_tracking (cfg : Config) (t : Snap) : String :=
  let tag := jvOr (tGet t "tag") (jvOr (JVal.str cfg.tag) (JVal.str "UNKNOWN"))
  let slug := jvOr (tGet t "slug") (JVal.str "")
  let tn := jvOr (tGet t "tracking_number") (JVal.str "")
  pyStr tag ++ "/" ++ pyStr slug ++ "/" ++ pyStr tn

/-- A Python `datetime`, reduced to what the dedup gate consumes: a
timezone-awareness flag and a count of seconds.  For aware values the
count is seconds since the epoch in UTC; for naive values it is the same
civil-time arithmetic with no zone attached.  Subtracting an aware from a
naive datetime (or vice versa) raises `TypeError` in Python. -/
structure PyDatetime where
  aware : Bool
  epoch : Int
deriving DecidableEq

/-- Gregorian leap year. -/
def isLeap (y : Nat) : Bool := y % 4 == 0 && (y % 100 != 0 || y % 400 == 0)

/-- Days in a month, as validated by the `datetime` constructor. -/
def daysInMonth (y m : Nat) : Nat :=
  if m == 2 then (if isLeap y then 29 else 28)
  else if m == 4 || m == 6 || m == 9 || m == 11 then 30
  else 31

/-- Days from 1970-01-01 to the given civil date (Hinnant's algorithm,
with floor division so it is exact on all inputs). -/
def daysFromCivil (y m d : Int) : Int :=
  let y2 := if m ≤ 2 then y - 1 else y
  let era := Int.fdiv y2 400
  let yoe := y2 - era * 400
  let mp := if m > 2 then m - 3 else m + 9
  let doy := Int.fdiv (153 * mp + 2) 5 + d - 1
  let doe := yoe * 365 + Int.fdiv yoe 4 - Int.fdiv yoe 100 + doy
  era * 146097 + doe - 719468

/-- Civil date from days since 1970-01-01 (inverse of `daysFromCivil`). -/
def civilFromDays (z0 : Int) : Int × Int × Int :=
  let z := z0 + 719468
  let era := Int.fdiv z 146097
  let doe := z - era * 146097
  let yoe := Int.fdiv (doe - Int.fdiv doe 1460 + Int.fdiv doe 36524 - Int.fdiv doe 146096) 365
  let y := yoe + era * 400
  let doy := doe - (365 * yoe + Int.fdiv yoe 4 - Int.fdiv yoe 100)
  let mp := Int.fdiv (5 * doy + 2) 153
  let d := doy - Int.fdiv (153 * mp + 2) 5 + 1
  let m := if mp < 10 then mp + 3 else mp - 9
  (if m ≤ 2 then y + 1 else y, m, d)

/-- Read exactly `k` decimal digits, returning their value. -/
def readFixed : Nat → List Char → Nat → Option (Nat × List Char)
  | 0, cs, acc => some (acc, cs)
  | Nat.succ k, cs, acc =>
    match cs with
    | [] => none
    | c :: rest =>
      if c.isDigit then readFixed k rest (acc * 10 + (c.toNat - 48)) else none

/-- Consume an expected character. -/
def expectChar (c : Char) : List Char → Option (List Char)
  | [] => none
  | x :: rest => if x = c then some rest else none

/-- Parse `YYYY-MM-DD`. -/
def parseDate (cs : List Char) : Option (Nat × Nat × Nat × List Char) :=
  match readFixed 4 cs 0 with
  | none => none
  | some (y, cs1) =>
    match expectChar (Char.ofNat 45) cs1 with
    | none => none
    | some cs2 =>
      match readFixed 2 cs2 0 with
      | none => none
      | some (m, cs3) =>
        match expectChar (Char.ofNat 45) cs3 with
        | none => none
        | some cs4 =>
          match readFixed 2 cs4 0 with
          | none => none
          | some (d, cs5) => some (y, m, d, cs5)

/-- Parse `HH:MM` with optional `:SS`. -/
def parseTime (cs : List Char) : Option (Nat × Nat × Nat × List Char) :=
  match readFixed 2 cs 0 with
  | none => none
  | some (h, cs1) =>
    match expectChar ':' cs1 with
    | none => none
    | some cs2 =>
      match readFixed 2 cs2 0 with
      | none => none
      | some (mi, cs3) =>
        match cs3 with
        | ':' :: cs4 =>
          match readFixed 2 cs4 0 with
          | none => none
          | some (s, cs5) => some (h, mi, s, cs5)
        | _ => some (h, mi, 0, cs3)

/-- Parse the optional UTC offset at the end of the string.  `some none`
is a naive timestamp, `some (some off)` an aware one with the given
offset in seconds. -/
def parseOffset (cs : List Char) : Option (Option Int) :=
  match cs with
  | [] => some none
  | ['Z'] => some (some 0)
  | c :: rest =>
    if c = '+' ∨ c = Char.ofNat 45 then
      match readFixed 2 rest 0 with
      | none => none
      | some (oh, cs1) =>
        match expectChar ':' cs1 with
        | none => none
        | some cs2 =>
          match readFixed 2 cs2 0 with
          | none => none
          | some (om, cs3) =>
            if cs3 = [] ∧ oh ≤ 23 ∧ om ≤ 59 then
              some (some ((if c = '+' then (1 : Int) else -1) * (oh * 3600 + om * 60)))
            else none
    else none

/-- `datetime.fromisoformat`, on the grammar described in the header;
aware results are converted to seconds since the epoch in UTC. -/
def fromIso (s : String) : Option PyDatetime :=
  match parseDate s.data with
  | none => none
  | some (y, m, d, rest) =>
    if 1 ≤ y ∧ y ≤ 9999 ∧ 1 ≤ m ∧ m ≤ 12 ∧ 1 ≤ d ∧ d ≤ daysInMonth y m then
      match rest with
      | [] => some { aware := false, epoch := daysFromCivil y m d * 86400 }
      | c :: rest2 =>
        if c = 'T' ∨ c = ' ' then
          match parseTime rest2 with
          | none => none
          | some (h, mi, sec, rest3) =>
            if h ≤ 23 ∧ mi ≤ 59 ∧ sec ≤ 59 then
              match parseOffset rest3 with
              | none => none
              | some none =>
                some { aware := false, epoch := daysFromCivil y m d * 86400 + h * 3600 + mi * 60 + sec }
              | some (some off) =>
                some { aware := true, epoch := daysFromCivil y m d * 86400 + h * 3600 + mi * 60 + sec - off }
            else none
        else none
    else none

/-- Zero-pad to two digits. -/
def pad2 (n : Int) : String := (if n < 10 then "0" else "") ++ toString n

/-- Zero-pad a year to four digits. -/
def pad4 (n : Int) : String :=
  (if n < 10 then "000" else if n < 100 then "00" else if n < 1000 then "0" else "") ++ toString n

/-- `dt.isoformat()` for this model (aware values carry the UTC zone, as
every aware datetime built by the script does). -/
def pyIsoformat (dt : PyDatetime) : String :=
  let days := Int.fdiv dt.epoch 86400
  let rem := dt.epoch - days * 86400
  let c := civilFromDays days
  let h := Int.fdiv rem 3600
  let mi := Int.fdiv (rem - h * 3600) 60
  let s := rem - h * 3600 - mi * 60
  pad4 c.1 ++ "-" ++ pad2 c.2.1 ++ "-" ++ pad2 c.2.2 ++ "T" ++
    pad2 h ++ ":" ++ pad2 mi ++ ":" ++ pad2 s ++ (if dt.aware then "+00:00" else "")

/-- `datetime.fromisoformat(last)` applied to a stored state value: a
non-string argument raises `TypeError`, which the surrounding
`except Exception` turns into a parse failure, so both are `none` here. -/
def storedParse (v : JVal) : Option PyDatetime :=
  match v with
  | JVal.str s => fromIso s
  | _ => none

/-- `should_skip(tracking, handled_state, now)`.  The `try` block covers
only the `fromisoformat` call; the subtraction `now - last_dt` on the
line after it raises `TypeError` (uncaught) when exactly one side is
timezone-aware, modelled as `Except.error ()`.  The window comparison is
`(now - last_dt) < timedelta(days=DEDUP_DAYS)` at second granularity. -/
def should_skip (cfg : Config) (t : Snap) (state : Snap) (now : PyDatetime) : Except Unit Bool :=
  if cfg.dedupEnabled = false ∨ cfg.dedupDays ≤ 0 then Except.ok false
  else
    let last := (dictGet state (key_for_tracking cfg t)).getD JVal.null
    if jvTruthy last = false then Except.ok false
    else
      match storedParse last with
      | none => Except.ok false
      | some dt =>
        if now.aware = dt.aware then
          Except.ok (decide (now.epoch - dt.epoch < cfg.dedupDays * 86400))
        else Except.error ()

/-- `mark_handled(trackings, handled_state, now)`: set
`handled_state[key_for_tracking(t)] = now.isoformat()` for each snapshot,
in order. -/
def mark_handled (cfg : Config) : List Snap → Snap → PyDatetime → Snap
  | [], state, _ => state
  | t :: rest, state, now =>
    mark_handled cfg rest (dictSet state (key_for_tracking cfg t) (JVal.str (pyIsoformat now))) now

/-- The Canonical Export Record appended to `rows` by `normalize`.  Fields
that the code builds with `str(...)` / `.strip()` are strings; fields the
code passes through with only an `or ""` default keep their raw (possibly
non-string) value and so stay `JVal` here. -/
structure Row where
  tracking_number : String
  carrier_slug : JVal
  courier_name : JVal
  status_tag : String
  title : String
  order_id : String
  sales_office_id : String
  source : String
  custom_fields : List (String × String)
  custom_fields_json : String
  last_checkpoint_id : JVal
  last_checkpoint_time : JVal
  last_checkpoint_location : JVal
  updated_at : JVal

/-- The whitespace set of Python's `str.strip()` (ASCII portion; the
strings this program strips are ASCII-whitespace padded). -/
def pyWhitespace (c : Char) : Bool :=
  c = ' ' || c = Char.ofNat 9 || c = Char.ofNat 10 || c = Char.ofNat 13 ||
  c.toNat = 11 || c.toNat = 12

/-- `s.strip()` on a string. -/
def pyStripStr (s : String) : String :=
  String.mk (((s.data.dropWhile pyWhitespace).reverse.dropWhile pyWhitespace).reverse)

/-- `s.lower()` (ASCII portion; the filter comparison is ASCII). -/
def pyLowerChar (c : Char) : Char :=
  if 65 ≤ c.toNat ∧ c.toNat ≤ 90 then Char.ofNat (c.toNat + 32) else c

/-- `s.lower()` on a string. -/
def pyLowerStr (s : String) : String := String.mk (s.data.map pyLowerChar)

/-- Use a value as a `str`; anything else raises (`AttributeError` from
`.strip()`, `TypeError` from `" ".join`). -/
def asStr : JVal → Except Unit String
  | JVal.str s => Except.ok s
  | _ => Except.error ()

/-- `v.strip()`: whitespace-trim a string, raise on anything else. -/
def pyStrip (v : JVal) : Except Unit String :=
  match v with
  | JVal.str s => Except.ok (pyStripStr s)
  | _ => Except.error ()

/-- Require every element to be a string (the elements handed to
`" ".join`). -/
def mapStr : List JVal → Except Unit (List String)
  | [] => Except.ok []
  | v :: vs =>
    match v with
    | JVal.str s =>
      match mapStr vs with
      | Except.error e => Except.error e
      | Except.ok rest => Except.ok (s :: rest)
    | _ => Except.error ()

/-- `courier_map.get(slug, slug)`: a string key is looked up (missing keys
fall back to the slug itself); other hashable values miss the string-keyed
map and return the default; unhashable values (list, dict) raise. -/
def courierGet (cm : List (String × String)) (slug : JVal) : Except Unit JVal :=
  match slug with
  | JVal.str s =>
    match dictGet cm s with
    | some n => Except.ok (JVal.str n)
    | none => Except.ok (JVal.str s)
  | JVal.list _ => Except.error ()
  | JVal.obj _ => Except.error ()
  | v => Except.ok v

/-- `last_cp.get(k)` on the extracted checkpoint dict. -/
def cpGet (cp : Snap) (k : String) : JVal := (dictGet cp k).getD JVal.null

/-- The location block of `normalize`: use `last_cp.get("location")` when
truthy, else `" ".join([p for p in [city, state, country_name] if p])`,
which raises when a kept part is not a string. -/
def locResult (last_cp : Snap) : Except Unit JVal :=
  let loc0 := cpGet last_cp "location"
  if jvTruthy loc0 then Except.ok loc0
  else
    match mapStr ([cpGet last_cp "city", cpGet last_cp "state", cpGet last_cp "country_name"].filter jvTruthy) with
    | Except.error e => Except.error e
    | Except.ok strs => Except.ok (JVal.str (String.intercalate " " strs))

/-- JSON string escaping as in `json.dumps` with `ensure_ascii=False`. -/
def jsonEscapeChar (c : Char) : String :=
  if c = Char.ofNat 34 then "\\\""
  else if c = Char.ofNat 92 then "\\\\"
  else if c = Char.ofNat 10 then "\\n"
  else if c = Char.ofNat 13 then "\\r"
  else if c = Char.ofNat 9 then "\\t"
  else if c.toNat < 32 then
    "\\u00" ++ String.singleton (Nat.digitChar (c.toNat / 16)) ++ String.singleton (Nat.digitChar (c.toNat % 16))
  else String.singleton c

/-- A JSON string literal. -/
def jsonQuote (s : String) : String :=
  "\"" ++ String.join (s.data.map jsonEscapeChar) ++ "\""

/-- `json.dumps(custom_fields, ensure_ascii=False)` on a `dict[str, str]`. -/
def jsonDumps (d : List (String × String)) : String :=
  "\x7b" ++ String.intercalate ", " (d.map fun kv => jsonQuote kv.1 ++ ": " ++ jsonQuote kv.2) ++ "\x7d"

/-- The record-level filter of `normalize`:
`custom_fields.get("custom_1", "").strip().lower() == "parcelhub"`. -/
def filterMatches (cf : List (String × String)) : Bool :=
  pyLowerStr (pyStripStr (dictGetD cf "custom_1" "")) == "parcelhub"

/-- The body of the `normalize` loop after the filter check: build one
Canonical Export Record from a snapshot and its (already computed) custom
fields, performing exactly the fallible string operations the code does. -/
def buildRow (cfg : Config) (cm : List (String × String)) (t : Snap) (cf : List (String × String)) : Except Unit Row :=
  let last_cp := extract_last_checkpoint t
  match locResult last_cp with
  | Except.error e => Except.error e
  | Except.ok location =>
    let slug := jvOr (tGet t "slug") (JVal.str "")
    match courierGet cm slug with
    | Except.error e => Except.error e
    | Except.ok courier_name =>
      let external_order_id := pyStripStr (dictGetD cf cfg.orderIdField "")
      let order_id :=
        if external_order_id = "" then pyStripStr (pyStr (jvOr (tGet t "order_id") (JVal.str "")))
        else external_order_id
      let sales_office_id := pyStripStr (dictGetD cf "sales_office_id" "")
      match pyStrip (jvOr (tGet t "tracking_number") (JVal.str "")) with
      | Except.error e => Except.error e
      | Except.ok tracking_number =>
        match pyStrip (jvOr (tGet t "tag") (jvOr (JVal.str cfg.tag) (JVal.str ""))) with
        | Except.error e => Except.error e
        | Except.ok status_tag =>
          match pyStrip (jvOr (tGet t "title") (JVal.str "")) with
          | Except.error e => Except.error e
          | Except.ok title =>
            match pyStrip (jvOr (tGet t "source") (JVal.str "")) with
            | Except.error e => Except.error e
            | Except.ok sourceVal =>
              Except.ok
                { tracking_number := tracking_number
                  carrier_slug := slug
                  courier_name := courier_name
                  status_tag := status_tag
                  title := title
                  order_id := order_id
                  sales_office_id := sales_office_id
                  source := sourceVal
                  custom_fields := cf
                  custom_fields_json := jsonDumps cf
                  last_checkpoint_id := jvOr (cpGet last_cp "id") (jvOr (cpGet last_cp "checkpoint_id") (JVal.str ""))
                  last_checkpoint_time := jvOr (cpGet last_cp "checkpoint_time") (JVal.str "")
                  last_checkpoint_location := jvOr location (JVal.str "")
                  updated_at := jvOr (tGet t "updated_at") (JVal.str "") }

/-- One iteration of the `normalize` loop: compute the custom fields,
drop the snapshot when the `custom_1` filter matches, else build its
record. -/
def normalizeOne (cfg : Config) (cm : List (String × String)) (t : Snap) : Except Unit (Option Row) :=
  let cf := get_all_custom_fields t
  if filterMatches cf then Except.ok none
  else
    match buildRow cfg cm t cf with
    | Except.error e => Except.error e
    | Except.ok row => Except.ok (some row)

/-- `normalize(trackings, courier_map)`: one pass over the snapshots, in
order, appending the surviving records. -/
def normalize (cfg : Config) (cm : List (String × String)) : List Snap → Except Unit (List Row)
  | [] => Except.ok []
  | t :: ts =>
    match normalizeOne cfg cm t with
    | Except.error e => Except.error e
    | Except.ok r =>
      match normalize cfg cm ts with
      | Except.error e => Except.error e
      | Except.ok rest =>
        match r with
        | none => Except.ok rest
        | some row => Except.ok (row :: rest)

/-- A Canonical Export Record as serialized by `write_json`: a copy of the
row with the spreadsheet-only `custom_fields_json` field popped. -/
structure JsonItem where
  tracking_number : String
  carrier_slug : JVal
  courier_name : JVal
  status_tag : String
  title : String
  order_id : String
  sales_office_id : String
  source : String
  custom_fields : List (String × String)
  last_checkpoint_id : JVal
  last_checkpoint_time : JVal
  last_checkpoint_location : JVal
  updated_at : JVal

/-- `rr = dict(r); rr.pop("custom_fields_json", None)`. -/
def stripJsonField (r : Row) : JsonItem :=
  { tracking_number := r.tracking_number
    carrier_slug := r.carrier_slug
    courier_name := r.courier_name
    status_tag := r.status_tag
    title := r.title
    order_id := r.order_id
    sales_office_id := r.sales_office_id
    source := r.source
    custom_fields := r.custom_fields
    last_checkpoint_id := r.last_checkpoint_id
    last_checkpoint_time := r.last_checkpoint_time
    last_checkpoint_location := r.last_checkpoint_location
    updated_at := r.updated_at }

/-- The persisted document built by `write_json` (the `generated_at`
timestamp is passed in rather than re-read from the clock). -/
structure Payload where
  generated_at : String
  tag : String
  dedup_enabled : Bool
  dedup_days : Int
  count : Nat
  items : List JsonItem

/-- The `payload` dict of `write_json`. -/
def write_json_payload (cfg : Config) (now : PyDatetime) (rows : List Row) : Payload :=
  { generated_at := pyIsoformat now
    tag := cfg.tag
    dedup_enabled := cfg.dedupEnabled
    dedup_days := cfg.dedupDays
    count := rows.length
    items := rows.map stripJsonField }

/-- `[t for t in trackings if not should_skip(t, handled, now)]`,
propagating an exception raised by `should_skip`. -/
def gateFilter (cfg : Config) (st : Snap) (now : PyDatetime) : List Snap → Except Unit (List Snap)
  | [] => Except.ok []
  | t :: ts =>
    match should_skip cfg t st now with
    | Except.error e => Except.error e
    | Except.ok b =>
      match gateFilter cfg st now ts with
      | Except.error e => Except.error e
      | Except.ok rest => Except.ok (if b then rest else t :: rest)

/-- The pure data flow of `main` after the fetch: gate the snapshots
against the loaded state, normalize the survivors, build the persisted
document, and — exactly when `DEDUP_ENABLED and DEDUP_DAYS > 0` — mark
every gate survivor in the state and save it.  Returns the exported rows,
the JSON payload, the end-of-run state mapping, and whether
`save_state` was called. -/
def runMain (cfg : Config) (cm : List (String × String)) (trackings : List Snap)
    (st0 : Snap) (now : PyDatetime) : Except Unit (List Row × Payload × Snap × Bool) :=
  match gateFilter cfg st0 now trackings with
  | Except.error e => Except.error e
  | Except.ok newT =>
    match normalize cfg cm newT with
    | Except.error e => Except.error e
    | Except.ok rows =>
      let pl := write_json_payload cfg now rows
      if cfg.dedupEnabled = true ∧ 0 < cfg.dedupDays then
        Except.ok (rows, pl, mark_handled cfg newT st0 now, true)
      else Except.ok (rows, pl, st0, false)

/-- `v`, when truthy, is a string (the shape under which the code's
`or ""` / `.strip()` and `" ".join` idioms cannot raise). -/
def strOkB (v : JVal) : Bool := !jvTruthy v || v.isStr

/-- `v`, when truthy, is a dict. -/
def objOrFalsy (v : JVal) : Bool := !jvTruthy v || v.isObj

/-- `v` is `None` or a string. -/
def strOrNull (v : JVal) : Prop := v = JVal.null ∨ ∃ s, v = JVal.str s

/-- Every field of a snapshot that `normalize` consumes as a string is,
when truthy, a string: the top-level scalars it strips plus the
sub-fields of the authoritative checkpoint. -/
def CleanSnap (t : Snap) : Prop :=
  strOkB (tGet t "tracking_number") = true ∧ strOkB (tGet t "tag") = true ∧
  strOkB (tGet t "title") = true ∧ strOkB (tGet t "source") = true ∧
  strOkB (tGet t "updated_at") = true ∧ strOkB (tGet t "slug") = true ∧
  strOkB (cpGet (extract_last_checkpoint t) "location") = true ∧
  strOkB (cpGet (extract_last_checkpoint t) "city") = true ∧
  strOkB (cpGet (extract_last_checkpoint t) "state") = true ∧
  strOkB (cpGet (extract_last_checkpoint t) "country_name") = true ∧
  strOkB (cpGet (extract_last_checkpoint t) "id") = true ∧
  strOkB (cpGet (extract_last_checkpoint t) "checkpoint_id") = true ∧
  strOkB (cpGet (extract_last_checkpoint t) "checkpoint_time") = true

instance (t : Snap) : Decidable (CleanSnap t) := by
  unfold CleanSnap
  exact inferInstance

/-- Every `JVal`-typed field of a record is a string (the string-or-
string-mapping typing invariant of the Canonical Export Record; the
remaining fields are strings or string maps by construction). -/
def rowWellTyped (r : Row) : Bool :=
  r.carrier_slug.isStr && r.courier_name.isStr && r.last_checkpoint_id.isStr &&
  r.last_checkpoint_time.isStr && r.last_checkpoint_location.isStr && r.updated_at.isStr

/-- The value of a would-be checkpoint slot when it holds a non-empty
mapping; `none` otherwise. -/
def asNonemptyObj (v : JVal) : Option Snap :=
  match v with
  | JVal.obj kvs => if kvs.isEmpty then none else some kvs
  | _ => none

/-- An item of a sequence-style custom-fields value that the loop skips:
not a dict, or its `name` is absent or `None`. -/
def noUsableName (v : JVal) : Bool :=
  match v with
  | JVal.obj kvs =>
    match dictGet kvs "name" with
    | none => true
    | some JVal.null => true
    | some _ => false
  | _ => true

/-- Written from the spec's words (checkpoint candidate (c)): "the final
element of the checkpoints sequence", empty when it is not a non-empty
mapping. -/
def spec_checkpoint_c (t : Snap) : Snap :=
  match tGet t "checkpoints" with
  | JVal.list cps =>
    match cps.getLast? with
    | some (JVal.obj kvs) => kvs
    | _ => []
  | _ => []

/-- Written from the spec's words: "returns the first non-empty candidate
among (a) the direct last-checkpoint object, (b) the differently-named
direct object, (c) the final element of the checkpoints sequence, in that
fixed precedence order, and an empty mapping when none exist". -/
def spec_first_nonempty (t : Snap) : Snap :=
  match asNonemptyObj (tGet t "last_checkpoint") with
  | some cp => cp
  | none =>
    match asNonemptyObj (tGet t "latest_checkpoint") with
    | some cp => cp
    | none => spec_checkpoint_c t

/-- Written from the spec's words (order-identifier resolution): the
configured custom field's value when non-empty after trimming, else the
top-level order-id field trimmed, else the empty string. -/
def spec_order_id (cfg : Config) (t : Snap) : String :=
  let cfv := pyStripStr (dictGetD (get_all_custom_fields t) cfg.orderIdField "")
  if cfv = "" then
    match tGet t "order_id" with
    | JVal.str s => pyStripStr s
    | _ => ""
  else cfv

/-- Written from the amended claim's words: the status tag used when the
snapshot's own tag is unusable — the configured tag, or `"UNKNOWN"` when
that is empty. -/
def spec_fallback_tag (cfg : Config) : String :=
  if cfg.tag = "" then "UNKNOWN" else cfg.tag

/-- Written from the amended claim's words: the snapshot's tag when it is
a non-empty string, else the configured fallback. -/
def spec_tag_of (cfg : Config) (v : JVal) : String :=
  match v with
  | JVal.str s => if s = "" then spec_fallback_tag cfg else s
  | _ => spec_fallback_tag cfg

/-- Written from the claim's words: a string field read verbatim,
defaulting to the empty string when absent. -/
def spec_str_of (v : JVal) : String :=
  match v with
  | JVal.str s => s
  | _ => ""

/-- Written from the amended claim's words: identity key
`{tag}/{slug}/{tracking_number}` where the tag falls back first to the
configured tag and then, when that is empty, to `"UNKNOWN"`. -/
def spec_identity_key (cfg : Config) (t : Snap) : String :=
  spec_tag_of cfg (tGet t "tag") ++ "/" ++ spec_str_of (tGet t "slug") ++ "/" ++
    spec_str_of (tGet t "tracking_number")

/-- A default record, used only to read off concrete evaluation results. -/
def rowDefault : Row :=
  { tracking_number := "", carrier_slug := JVal.null, courier_name := JVal.null,
    status_tag := "", title := "", order_id := "", sales_office_id := "", source := "",
    custom_fields := [], custom_fields_json := "", last_checkpoint_id := JVal.null,
    last_checkpoint_time := JVal.null, last_checkpoint_location := JVal.null,
    updated_at := JVal.null }

/-- The default configuration of the script: `AFTERSHIP_TAG="Pending"`,
`ORDER_ID_CUSTOM_FIELD="external_order_id"`, dedup enabled for 30 days. -/
def cfgA : Config :=
  { tag := "Pending", orderIdField := "external_order_id", dedupEnabled := true, dedupDays := 30 }

/-- The same configuration with `AFTERSHIP_TAG` set to the empty string. -/
def cfgE : Config :=
  { tag := "", orderIdField := "external_order_id", dedupEnabled := true, dedupDays := 30 }

/-- A run instant: the epoch, timezone-aware (as `utcnow()` always is). -/
def now0 : PyDatetime := { aware := true, epoch := 0 }

/-- A snapshot whose `custom_1` custom field matches the ParcelHub filter
(in different casing and with surrounding whitespace). -/
def c1snap : Snap :=
  [("custom_fields", JVal.obj [("custom_1", JVal.str " PARCELHUB ")]),
   ("slug", JVal.str "ups"), ("tracking_number", JVal.str "TN1")]

/-- The state committed by a dedup-enabled run over `[c1snap]` alone. -/
def c1state1 : Snap := [("Pending/ups/TN1", JVal.str (pyIsoformat now0))]

/-- A plain snapshot with a slug and tracking number only. -/
def c2snap : Snap := [("slug", JVal.str "ups"), ("tracking_number", JVal.str "TN2")]

/-- A state whose stored value for `c2snap` parses (`fromisoformat`
accepts it) but is timezone-naive. -/
def c2state : Snap := [("Pending/ups/TN2", JVal.str "2024-01-01T00:00:00")]

/-- A state whose stored value for `c2snap` is not a parseable timestamp. -/
def c2wstate : Snap := [("Pending/ups/TN2", JVal.str "not-a-date")]

/-- An aware stored timestamp for `c2snap`: 2024-03-01T00:00:00+00:00. -/
def c4state : Snap := [("Pending/ups/TN2", JVal.str "2024-03-01T00:00:00+00:00")]

/-- The parse of the stored `c4state` timestamp. -/
def c4dt : PyDatetime := { aware := true, epoch := 1709251200 }

/-- A `now` exactly `DEDUP_DAYS` (30 days) after the stored timestamp. -/
def c4nowBoundary : PyDatetime := { aware := true, epoch := 1709251200 + 2592000 }

/-- A `now` one second before the 30-day boundary. -/
def c4nowInside : PyDatetime := { aware := true, epoch := 1709251200 + 2592000 - 1 }

/-- A non-empty prior dedup state. -/
def c5state : Snap := [("old", JVal.str "x")]

/-- A snapshot whose `last_checkpoint` is a truthy non-mapping while its
`latest_checkpoint` is a valid non-empty mapping. -/
def c6snap : Snap :=
  [("last_checkpoint", JVal.str "oops"),
   ("latest_checkpoint", JVal.obj [("id", JVal.str "b")])]

/-- A snapshot carrying all three checkpoint representations at once. -/
def c6all : Snap :=
  [("last_checkpoint", JVal.obj [("id", JVal.str "a")]),
   ("latest_checkpoint", JVal.obj [("id", JVal.str "b")]),
   ("checkpoints", JVal.list [JVal.obj [("id", JVal.str "c")]])]

/-- A snapshot with no custom fields and a top-level `order_id` that
needs trimming. -/
def c8snap : Snap := [("order_id", JVal.str " OID ")]

/-- The record `normalize` builds from `c8snap`. -/
def c8row : Row :=
  ((buildRow cfgA [] c8snap (get_all_custom_fields c8snap)).toOption).getD rowDefault

/-- A snapshot with no direct checkpoint objects and a checkpoints
sequence whose earlier element is a well-formed checkpoint but whose
final element is not a mapping. -/
def c10snap : Snap :=
  [("checkpoints", JVal.list [JVal.obj [("id", JVal.str "c")], JVal.str "bad"])]

/-! ## Helper lemmas -/

theorem dictGet_dictSet_self {α : Type} (d : List (String × α)) (k : String) (v : α) :
    dictGet (dictSet d k v) k = some v := by
  induction d with
  | nil => simp [dictSet, dictGet]
  | cons p rest ih =>
    obtain ⟨k2, v2⟩ := p
    by_cases h : k2 = k
    · simp [dictSet, dictGet, h]
    · simp [dictSet, dictGet, h, ih]

theorem dictGet_dictSet_ne {α : Type} (d : List (String × α)) {k k2 : String}
    (h : k2 ≠ k) (v : α) : dictGet (dictSet d k v) k2 = dictGet d k2 := by
  induction d with
  | nil => simp [dictSet, dictGet, Ne.symm h]
  | cons p rest ih =>
    obtain ⟨k3, v3⟩ := p
    by_cases h2 : k3 = k
    · subst h2
      have h3 : ¬ k3 = k2 := fun e => h (e.symm)
      simp [dictSet, dictGet, h3]
    · simp [dictSet, dictGet, h2, ih]

theorem gateFilter_mem {cfg : Config} {st : Snap} {now : PyDatetime}
    {l res : List Snap} {t : Snap}
    (hg : gateFilter cfg st now l = Except.ok res) (ht : t ∈ l)
    (hs : should_skip cfg t st now = Except.ok false) : t ∈ res := by
  induction l generalizing res with
  | nil => cases ht
  | cons a ts ih =>
    cases hsa : should_skip cfg a st now with
    | error e =>
      simp only [gateFilter, hsa] at hg
      exact Except.noConfusion hg
    | ok b =>
      cases hga : gateFilter cfg st now ts with
      | error e =>
        simp only [gateFilter, hsa, hga] at hg
        exact Except.noConfusion hg
      | ok rest =>
        simp only [gateFilter, hsa, hga] at hg
        have hres : (if b then rest else a :: rest) = res := by
          injection hg
        rcases List.mem_cons.mp ht with h1 | h2
        · subst h1
          have hb : b = false := by
            rw [hsa] at hs
            simpa using hs
          subst hb
          simp only [if_neg Bool.false_ne_true] at hres
          rw [← hres]
          exact List.mem_cons_self _ _
        · have hmem := ih hga h2
          rw [← hres]
          cases b with
          | true => simpa using hmem
          | false => simp only [if_neg Bool.false_ne_true]; exact List.mem_cons_of_mem _ hmem

theorem mark_handled_get (cfg : Config) (now : PyDatetime) (l : List Snap) (st : Snap) (k : String)
    (h : dictGet st k = some (JVal.str (pyIsoformat now)) ∨
      ∃ t, t ∈ l ∧ key_for_tracking cfg t = k) :
    dictGet (mark_handled cfg l st now) k = some (JVal.str (pyIsoformat now)) := by
  induction l generalizing st with
  | nil =>
    rcases h with h | ⟨t, ht, _⟩
    · simpa [mark_handled] using h
    · cases ht
  | cons a ts ih =>
    simp only [mark_handled]
    apply ih
    rcases h with h | ⟨t, ht, hk⟩
    · by_cases he : k = key_for_tracking cfg a
      · subst he
        exact Or.inl (dictGet_dictSet_self _ _ _)
      · left
        rw [dictGet_dictSet_ne _ he]
        exact h
    · rcases List.mem_cons.mp ht with rfl | hts
      · left
        rw [← hk]
        exact dictGet_dictSet_self _ _ _
      · exact Or.inr ⟨t, hts, hk⟩

theorem isStr_exists {v : JVal} (h : v.isStr = true) : ∃ s, v = JVal.str s := by
  cases v with
  | str s => exact ⟨s, rfl⟩
  | null => simp [JVal.isStr] at h
  | bool b => simp [JVal.isStr] at h
  | int n => simp [JVal.isStr] at h
  | list xs => simp [JVal.isStr] at h
  | obj kvs => simp [JVal.isStr] at h

theorem strOk_or {v : JVal} (h : strOkB v = true) (w : JVal) (hw : ∃ s, w = JVal.str s) :
    ∃ s, jvOr v w = JVal.str s := by
  cases hb : jvTruthy v with
  | false =>
    obtain ⟨s, rfl⟩ := hw
    exact ⟨s, by simp [jvOr, hb]⟩
  | true =>
    obtain ⟨s, rfl⟩ := isStr_exists (by simpa [strOkB, hb] using h)
    exact ⟨s, by simp [jvOr, hb]⟩

theorem str_or_str (a b : String) : ∃ s, jvOr (JVal.str a) (JVal.str b) = JVal.str s := by
  cases hb : jvTruthy (JVal.str a) with
  | false => exact ⟨b, by simp [jvOr, hb]⟩
  | true => exact ⟨a, by simp [jvOr, hb]⟩

theorem mapStr_ok {l : List JVal} (h : ∀ v ∈ l, v.isStr = true) :
    ∃ ss, mapStr l = Except.ok ss := by
  induction l with
  | nil => exact ⟨[], rfl⟩
  | cons v vs ih =>
    obtain ⟨s, rfl⟩ := isStr_exists (h v (List.mem_cons_self _ _))
    obtain ⟨ss, hss⟩ := ih fun w hw => h w (List.mem_cons_of_mem _ hw)
    exact ⟨s :: ss, by simp [mapStr, hss]⟩

theorem locResult_ok {cp : Snap}
    (hloc : strOkB (cpGet cp "location") = true) (hcity : strOkB (cpGet cp "city") = true)
    (hst : strOkB (cpGet cp "state") = true) (hcn : strOkB (cpGet cp "country_name") = true) :
    ∃ s, locResult cp = Except.ok (JVal.str s) := by
  cases hb : jvTruthy (cpGet cp "location") with
  | true =>
    obtain ⟨s, hs⟩ := isStr_exists (by simpa [strOkB, hb] using hloc)
    have hb2 : jvTruthy (JVal.str s) = true := by rw [← hs]; exact hb
    exact ⟨s, by simp [locResult, hs, hb2]⟩
  | false =>
    have hmem : ∀ v ∈ ([cpGet cp "city", cpGet cp "state", cpGet cp "country_name"].filter jvTruthy),
        v.isStr = true := by
      intro v hv
      obtain ⟨hm, htr⟩ := List.mem_filter.mp hv
      simp only [List.mem_cons, List.not_mem_nil, or_false] at hm
      rcases hm with rfl | rfl | rfl
      · simpa [strOkB, htr] using hcity
      · simpa [strOkB, htr] using hst
      · simpa [strOkB, htr] using hcn
    obtain ⟨ss, hss⟩ := mapStr_ok hmem
    exact ⟨String.intercalate " " ss, by simp [locResult, hb, hss]⟩

theorem courierGet_ok (cm : List (String × String)) (s : String) :
    ∃ s2, courierGet cm (JVal.str s) = Except.ok (JVal.str s2) := by
  cases h : dictGet cm s with
  | none => exact ⟨s, by simp [courierGet, h]⟩
  | some n => exact ⟨n, by simp [courierGet, h]⟩

theorem pyStrip_str (s : String) : pyStrip (JVal.str s) = Except.ok (pyStripStr s) := rfl

theorem fromIso_str_ne_empty {s : String} {dt : PyDatetime} (h : fromIso s = some dt) :
    jvTruthy (JVal.str s) = true := by
  by_cases he : s = ""
  · subst he
    simp [fromIso, parseDate, readFixed] at h
  · simp [jvTruthy, bne_iff_ne, he]

theorem buildRow_clean (cfg : Config) (cm : List (String × String)) (cf : List (String × String))
    {t : Snap} (h : CleanSnap t) :
    ∃ row, buildRow cfg cm t cf = Except.ok row ∧ rowWellTyped row = true := by
  obtain ⟨htn, htag, htitle, hsrc, hupd, hslug, hloc, hcity, hst, hcn, hid, hcid, hct⟩ := h
  obtain ⟨ls, hls⟩ := locResult_ok hloc hcity hst hcn
  obtain ⟨s1, hs1⟩ := strOk_or hslug (JVal.str "") ⟨"", rfl⟩
  obtain ⟨s2, hs2⟩ := courierGet_ok cm s1
  obtain ⟨s3, hs3⟩ := strOk_or htn (JVal.str "") ⟨"", rfl⟩
  obtain ⟨s4a, hs4a⟩ := str_or_str cfg.tag ""
  obtain ⟨s4, hs4⟩ := strOk_or htag (jvOr (JVal.str cfg.tag) (JVal.str "")) ⟨s4a, hs4a⟩
  obtain ⟨s5, hs5⟩ := strOk_or htitle (JVal.str "") ⟨"", rfl⟩
  obtain ⟨s6, hs6⟩ := strOk_or hsrc (JVal.str "") ⟨"", rfl⟩
  obtain ⟨s7a, hs7a⟩ := strOk_or hcid (JVal.str "") ⟨"", rfl⟩
  obtain ⟨s7, hs7⟩ := strOk_or hid
    (jvOr (cpGet (extract_last_checkpoint t) "checkpoint_id") (JVal.str "")) ⟨s7a, hs7a⟩
  obtain ⟨s8, hs8⟩ := strOk_or hct (JVal.str "") ⟨"", rfl⟩
  obtain ⟨s9, hs9⟩ := str_or_str ls ""
  obtain ⟨s10, hs10⟩ := strOk_or hupd (JVal.str "") ⟨"", rfl⟩
  refine ⟨Row.mk (pyStripStr s3) (JVal.str s1) (JVal.str s2) (pyStripStr s4) (pyStripStr s5)
      (if pyStripStr (dictGetD cf cfg.orderIdField "") = ""
        then pyStripStr (pyStr (jvOr (tGet t "order_id") (JVal.str "")))
        else pyStripStr (dictGetD cf cfg.orderIdField ""))
      (pyStripStr (dictGetD cf "sales_office_id" "")) (pyStripStr s6) cf (jsonDumps cf)
      (JVal.str s7) (JVal.str s8) (JVal.str s9) (JVal.str s10), ?_, ?_⟩
  · simp only [buildRow, hls, hs1, hs2, hs3, hs4, hs5, hs6, hs7, hs8, hs9, hs10, pyStrip]
  · simp only [rowWellTyped, JVal.isStr, Bool.and_self]

theorem buildRow_order_id {cfg : Config} {cm : List (String × String)} {t : Snap}
    {cf : List (String × String)} {row : Row} (h : buildRow cfg cm t cf = Except.ok row) :
    row.order_id =
      (if pyStripStr (dictGetD cf cfg.orderIdField "") = ""
        then pyStripStr (pyStr (jvOr (tGet t "order_id") (JVal.str "")))
        else pyStripStr (dictGetD cf cfg.orderIdField "")) := by
  simp only [buildRow] at h
  cases h1 : locResult (extract_last_checkpoint t) with
  | error e => rw [h1] at h; exact Except.noConfusion h
  | ok location =>
    simp only [h1] at h
    cases h2 : courierGet cm (jvOr (tGet t "slug") (JVal.str "")) with
    | error e => rw [h2] at h; exact Except.noConfusion h
    | ok courierName =>
      simp only [h2] at h
      cases h3 : pyStrip (jvOr (tGet t "tracking_number") (JVal.str "")) with
      | error e => rw [h3] at h; exact Except.noConfusion h
      | ok tn =>
        simp only [h3] at h
        cases h4 : pyStrip (jvOr (tGet t "tag") (jvOr (JVal.str cfg.tag) (JVal.str ""))) with
        | error e => rw [h4] at h; exact Except.noConfusion h
        | ok st =>
          simp only [h4] at h
          cases h5 : pyStrip (jvOr (tGet t "title") (JVal.str "")) with
          | error e => rw [h5] at h; exact Except.noConfusion h
          | ok ti =>
            simp only [h5] at h
            cases h6 : pyStrip (jvOr (tGet t "source") (JVal.str "")) with
            | error e => rw [h6] at h; exact Except.noConfusion h
            | ok sv =>
              simp only [h6] at h
              injection h with h7
              rw [← h7]

theorem normalizeOne_ok_some {cfg : Config} {cm : List (String × String)} {t : Snap} {row : Row}
    (h : normalizeOne cfg cm t = Except.ok (some row)) :
    filterMatches (get_all_custom_fields t) = false ∧
      buildRow cfg cm t (get_all_custom_fields t) = Except.ok row := by
  by_cases hf : filterMatches (get_all_custom_fields t) = true
  · exfalso
    simp only [normalizeOne, hf, if_true] at h
    injection h with h2
    exact Option.noConfusion h2
  · have hf2 : filterMatches (get_all_custom_fields t) = false := by
      simpa using hf
    refine ⟨hf2, ?_⟩
    simp only [normalizeOne, hf2, Bool.false_eq_true, if_false] at h
    cases hb : buildRow cfg cm t (get_all_custom_fields t) with
    | error e => rw [hb] at h; exact Except.noConfusion h
    | ok r =>
      simp only [hb] at h
      injection h with h2
      injection h2 with h3
      rw [h3]

theorem extractFromSeq_eq_spec_c (t : Snap) : extractFromSeq t = spec_checkpoint_c t := by
  unfold extractFromSeq spec_checkpoint_c
  cases hv : tGet t "checkpoints" with
  | list cps =>
    cases cps with
    | nil => simp [jvOr, jvTruthy]
    | cons a rest =>
      simp only [jvOr, jvTruthy, Bool.not_eq_true', List.isEmpty_cons, if_true]
      cases hl : (a :: rest).getLast? with
      | none => rfl
      | some v => cases v <;> rfl
  | null => simp [jvOr, jvTruthy]
  | bool b => cases b <;> simp [jvOr, jvTruthy]
  | int n =>
    by_cases hn : n = 0
    · simp [jvOr, jvTruthy, hn]
    · simp [jvOr, jvTruthy, bne_iff_ne, hn]
  | str s =>
    by_cases hs : s = ""
    · simp [jvOr, jvTruthy, hs]
    · simp [jvOr, jvTruthy, bne_iff_ne, hs]
  | obj kvs =>
    cases kvs with
    | nil => simp [jvOr, jvTruthy]
    | cons a rest => simp [jvOr, jvTruthy]

theorem asNonemptyObj_falsy {v : JVal} (h : jvTruthy v = false) : asNonemptyObj v = none := by
  cases v with
  | obj kvs =>
    have : kvs.isEmpty = true := by simpa [jvTruthy] using h
    simp [asNonemptyObj, this]
  | null => rfl
  | bool b => rfl
  | int n => rfl
  | str s2 => rfl
  | list xs => rfl

theorem isStr_obj_of {v : JVal} (h : objOrFalsy v = true) (htr : jvTruthy v = true) :
    ∃ kvs, v = JVal.obj kvs := by
  have hobj : v.isObj = true := by simpa [objOrFalsy, htr] using h
  cases v with
  | obj kvs => exact ⟨kvs, rfl⟩
  | null => simp [JVal.isObj] at hobj
  | bool b => simp [JVal.isObj] at hobj
  | int n => simp [JVal.isObj] at hobj
  | str s2 => simp [JVal.isObj] at hobj
  | list xs => simp [JVal.isObj] at hobj

theorem cf_reps_agree (ps : List (String × Option String)) (acc : List (String × String)) :
    cfFromPairs (ps.map fun p => (p.1, p.2.elim JVal.null JVal.str)) acc =
      cfFromList (ps.map fun p =>
        JVal.obj [("name", JVal.str p.1), ("value", p.2.elim JVal.null JVal.str)]) acc := by
  induction ps generalizing acc with
  | nil => rfl
  | cons p rest ih =>
    obtain ⟨k, v⟩ := p
    cases v with
    | none => simp [cfFromPairs, cfFromList, dictGet, stringifyVal, pyStr, ih]
    | some str => simp [cfFromPairs, cfFromList, dictGet, stringifyVal, pyStr, ih]

theorem cfFromList_append (xs ys : List JVal) (acc : List (String × String)) :
    cfFromList (xs ++ ys) acc = cfFromList ys (cfFromList xs acc) := by
  induction xs generalizing acc with
  | nil => rfl
  | cons a rest ih =>
    cases a with
    | obj kvs =>
      simp only [List.cons_append, cfFromList]
      cases hn : dictGet kvs "name" with
      | none => exact ih acc
      | some nv => cases nv <;> simp [ih]
    | null => exact ih acc
    | bool b => exact ih acc
    | int n => exact ih acc
    | str s2 => exact ih acc
    | list l => exact ih acc

theorem cfFromList_bad (bad : JVal) (h : noUsableName bad = true) (acc : List (String × String)) :
    cfFromList [bad] acc = acc := by
  cases bad with
  | obj kvs =>
    cases hn : dictGet kvs "name" with
    | none => simp [cfFromList, hn]
    | some nv =>
      cases nv <;> simp_all [cfFromList, noUsableName, hn]
  | null => rfl
  | bool b => rfl
  | int n => rfl
  | str s2 => rfl
  | list l => rfl

theorem key_plain_part (v : JVal) (hv : strOrNull v) :
    pyStr (jvOr v (JVal.str "")) = spec_str_of v := by
  rcases hv with rfl | ⟨s, rfl⟩
  · rfl
  · by_cases hs : s = ""
    · subst hs
      rfl
    · have he : jvOr (JVal.str s) (JVal.str "") = JVal.str s := by
        simp [jvOr, jvTruthy, bne_iff_ne, hs]
      simp [he, pyStr, spec_str_of]

theorem key_tag_part (cfg : Config) (v : JVal) (hv : strOrNull v) :
    pyStr (jvOr v (jvOr (JVal.str cfg.tag) (JVal.str "UNKNOWN"))) = spec_tag_of cfg v := by
  have hin : pyStr (jvOr (JVal.str cfg.tag) (JVal.str "UNKNOWN")) = spec_fallback_tag cfg := by
    by_cases hc : cfg.tag = ""
    · simp [jvOr, jvTruthy, hc, pyStr, spec_fallback_tag]
    · simp [jvOr, jvTruthy, bne_iff_ne, hc, pyStr, spec_fallback_tag]
  rcases hv with rfl | ⟨s, rfl⟩
  · simpa [jvOr, jvTruthy, spec_tag_of] using hin
  · by_cases hs : s = ""
    · subst hs
      simpa [jvOr, jvTruthy, spec_tag_of] using hin
    · simp [jvOr, jvTruthy, bne_iff_ne, hs, pyStr, spec_tag_of]

/-! ## Claim theorems -/

/-- C1, counterexample: a snapshot whose `custom_1` equals the excluded
value (case-insensitively, whitespace-trimmed) is excluded from the
normalized output — the run exports zero rows — yet its identity key IS
present in the state committed at end of run (and the state was saved),
contradicting the claim that filtered-out snapshots are not marked. -/
theorem c1_counterexample :
    (runMain cfgA [] [c1snap] [] now0).toOption.map
      (fun r => (r.1.length, (dictGet r.2.2.1 "Pending/ups/TN1").isSome, r.2.2.2)) =
      some (0, true, true) := rfl

/-- C1 (amended): in every dedup-enabled run, every snapshot that passes
the dedup gate is marked in the committed state — including snapshots the
record-level ParcelHub filter then drops from the normalized output.
`main` calls `mark_handled` on `new_trackings` (the gate survivors), not
on the snapshots actually exported. -/
theorem c1_filtered_snapshot_still_marked {cfg : Config} {cm : List (String × String)}
    {trackings : List Snap} {st0 : Snap} {now : PyDatetime} {t : Snap}
    {rows : List Row} {pl : Payload} {st1 : Snap} {sv : Bool}
    (ht : t ∈ trackings) (henabled : cfg.dedupEnabled = true) (hdays : 0 < cfg.dedupDays)
    (hskip : should_skip cfg t st0 now = Except.ok false)
    (hrun : runMain cfg cm trackings st0 now = Except.ok (rows, pl, st1, sv)) :
    (filterMatches (get_all_custom_fields t) = true → normalizeOne cfg cm t = Except.ok none) ∧
    dictGet st1 (key_for_tracking cfg t) = some (JVal.str (pyIsoformat now)) := by
  constructor
  · intro hf
    simp [normalizeOne, hf]
  · cases hg : gateFilter cfg st0 now trackings with
    | error e =>
      rw [runMain, hg] at hrun
      exact Except.noConfusion hrun
    | ok newT =>
      rw [runMain, hg] at hrun
      cases hn : normalize cfg cm newT with
      | error e =>
        simp only [hn] at hrun
        exact Except.noConfusion hrun
      | ok rows2 =>
        simp only [hn] at hrun
        rw [if_pos ⟨henabled, hdays⟩] at hrun
        injection hrun with h4
        simp only [Prod.mk.injEq] at h4
        obtain ⟨h41, h42, h43, h44⟩ := h4
        rw [← h43]
        exact mark_handled_get cfg now newT st0 _
          (Or.inr ⟨t, gateFilter_mem hg ht hskip, rfl⟩)

/-- C1, witness: the amended statement at the concrete ParcelHub-filtered
snapshot `c1snap` in a state-empty dedup-enabled run. -/
theorem c1_witness :
    (filterMatches (get_all_custom_fields c1snap) = true →
      normalizeOne cfgA [] c1snap = Except.ok none) ∧
    dictGet c1state1 (key_for_tracking cfgA c1snap) = some (JVal.str (pyIsoformat now0)) :=
  c1_filtered_snapshot_still_marked (List.mem_singleton.mpr rfl) rfl (by decide)
    (rfl : should_skip cfgA c1snap [] now0 = Except.ok false)
    (rfl : runMain cfgA [] [c1snap] [] now0 =
      Except.ok ([], write_json_payload cfgA now0 [], c1state1, true))

/-- C2, counterexample: `should_skip` is not exception-free: a stored
value that `fromisoformat` parses successfully but that is timezone-naive
(`"2024-01-01T00:00:00"`) makes the subtraction `now - last_dt` raise
`TypeError` outside the `try` block, so the check raises instead of
returning a boolean. -/
theorem c2_counterexample :
    should_skip cfgA c2snap c2state now0 = Except.error () := rfl

/-- C2 (amended): `should_skip` returns `ok false` immediately when dedup
is disabled or the window is non-positive; returns `ok false` when the
identity key is absent, falsy, a non-string, or an unparseable string
(fail-open); and returns some boolean whenever the stored value parses to
a timestamp whose awareness matches `now` — but a parseable timestamp of
mismatched awareness raises instead of being treated as not-a-duplicate. -/
theorem c2_should_skip_fail_open (cfg : Config) (t : Snap) (state : Snap) (now : PyDatetime) :
    (cfg.dedupEnabled = false ∨ cfg.dedupDays ≤ 0 →
      should_skip cfg t state now = Except.ok false) ∧
    (dictGet state (key_for_tracking cfg t) = none →
      should_skip cfg t state now = Except.ok false) ∧
    (∀ v, dictGet state (key_for_tracking cfg t) = some v →
      jvTruthy v = false ∨ storedParse v = none →
      should_skip cfg t state now = Except.ok false) ∧
    (∀ v dt, dictGet state (key_for_tracking cfg t) = some v → storedParse v = some dt →
      dt.aware = now.aware → ∃ b, should_skip cfg t state now = Except.ok b) := by
  refine ⟨?_, ?_, ?_, ?_⟩
  · intro h
    simp [should_skip, h]
  · intro h
    by_cases hc : cfg.dedupEnabled = false ∨ cfg.dedupDays ≤ 0
    · simp [should_skip, hc]
    · simp [should_skip, hc, h, jvTruthy]
  · intro v hv hcase
    by_cases hc : cfg.dedupEnabled = false ∨ cfg.dedupDays ≤ 0
    · simp [should_skip, hc]
    · rcases hcase with hf | hp
      · simp [should_skip, hc, hv, hf]
      · cases htr : jvTruthy v with
        | false => simp [should_skip, hc, hv, htr]
        | true => simp [should_skip, hc, hv, htr, hp]
  · intro v dt hv hp ha
    by_cases hc : cfg.dedupEnabled = false ∨ cfg.dedupDays ≤ 0
    · exact ⟨false, by simp [should_skip, hc]⟩
    · cases htr : jvTruthy v with
      | false => exact ⟨false, by simp [should_skip, hc, hv, htr]⟩
      | true =>
        refine ⟨decide (now.epoch - dt.epoch < cfg.dedupDays * 86400), ?_⟩
        simp [should_skip, hc, hv, htr, hp, ha.symm]

/-- C2, witness: the fail-open conjunct at a concrete unparseable stored
value. -/
theorem c2_witness : should_skip cfgA c2snap c2wstate now0 = Except.ok false :=
  (c2_should_skip_fail_open cfgA c2snap c2wstate now0).2.2.1
    (JVal.str "not-a-date") rfl (Or.inr rfl)

/-- C3, counterexample: `normalize` does raise on a malformed snapshot: a
non-string scalar `tracking_number` (the integer 5) is truthy, so
`(t.get("tracking_number") or "").strip()` calls `.strip()` on an `int`
and raises `AttributeError`. -/
theorem c3_counterexample :
    normalize cfgA [] [[("tracking_number", JVal.int 5)]] = Except.error () := rfl

/-- C3 (amended): for snapshot sequences in which every field consumed as
a string (the stripped top-level scalars, slug, `updated_at`, and the
selected checkpoint's location/city/state/country-name/id/checkpoint-id/
checkpoint-time sub-fields) is absent, falsy, or a string, `normalize`
never raises, and every produced record has every fixed field present
with string (or string-keyed string mapping) type, absent source data
degrading to the empty string.  Without that restriction `normalize` can
raise (see the counterexample). -/
theorem c3_normalize_total_on_clean (cfg : Config) (cm : List (String × String))
    (ts : List Snap) (h : ∀ t ∈ ts, CleanSnap t) :
    ∃ rows, normalize cfg cm ts = Except.ok rows ∧ ∀ row ∈ rows, rowWellTyped row = true := by
  induction ts with
  | nil => exact ⟨[], rfl, by simp⟩
  | cons t ts2 ih =>
    obtain ⟨rows2, hr2, hw2⟩ := ih fun x hx => h x (List.mem_cons_of_mem _ hx)
    have hct := h t (List.mem_cons_self _ _)
    obtain ⟨row, hrow, hwt⟩ := buildRow_clean cfg cm (get_all_custom_fields t) hct
    by_cases hf : filterMatches (get_all_custom_fields t) = true
    · refine ⟨rows2, ?_, hw2⟩
      simp [normalize, normalizeOne, hf, hr2]
    · have hf2 : filterMatches (get_all_custom_fields t) = false := by simpa using hf
      refine ⟨row :: rows2, ?_, ?_⟩
      · simp [normalize, normalizeOne, hf2, hrow, hr2]
      · intro r hr
        rcases List.mem_cons.mp hr with rfl | hmem
        · exact hwt
        · exact hw2 r hmem

/-- C3, witness: the amended statement on a two-snapshot sequence, one
with a padded tracking number and one entirely empty. -/
theorem c3_witness :
    ∃ rows, normalize cfgA [] [[("tracking_number", JVal.str " TN ")], []] = Except.ok rows ∧
      ∀ row ∈ rows, rowWellTyped row = true :=
  c3_normalize_total_on_clean cfgA [] [[("tracking_number", JVal.str " TN ")], []] (by decide)

/-- C4 (confirmed): when dedup is active and the state holds, under the
snapshot's identity key, a string that parses to a timestamp whose
awareness matches `now` (so the subtraction is defined), `should_skip`
returns `ok true` exactly when `now - stored < DEDUP_DAYS` (strict): at
exactly the boundary it returns `ok false`, and one second inside the
window it returns `ok true`. -/
theorem c4_dedup_window_boundary {cfg : Config} {t state : Snap} {now dt : PyDatetime}
    {s : String}
    (henabled : cfg.dedupEnabled = true) (hdays : 0 < cfg.dedupDays)
    (hstate : dictGet state (key_for_tracking cfg t) = some (JVal.str s))
    (hparse : fromIso s = some dt) (haware : dt.aware = now.aware) :
    (should_skip cfg t state now = Except.ok true ↔
      now.epoch - dt.epoch < cfg.dedupDays * 86400) ∧
    (now.epoch - dt.epoch = cfg.dedupDays * 86400 →
      should_skip cfg t state now = Except.ok false) ∧
    (now.epoch - dt.epoch = cfg.dedupDays * 86400 - 1 →
      should_skip cfg t state now = Except.ok true) := by
  have hc : ¬ (cfg.dedupEnabled = false ∨ cfg.dedupDays ≤ 0) := by
    push_neg
    refine ⟨by simp [henabled], by omega⟩
  have htr : jvTruthy (JVal.str s) = true := fromIso_str_ne_empty hparse
  have hmain : should_skip cfg t state now =
      Except.ok (decide (now.epoch - dt.epoch < cfg.dedupDays * 86400)) := by
    simp [should_skip, hc, hstate, htr, storedParse, hparse, haware.symm]
  refine ⟨?_, ?_, ?_⟩
  · rw [hmain]
    constructor
    · intro h
      injection h with h2
      exact of_decide_eq_true h2
    · intro h
      rw [decide_eq_true h]
  · intro h
    rw [hmain, decide_eq_false (by omega)]
  · intro h
    rw [hmain, decide_eq_true (by omega)]

/-- C4, witness: the boundary at a concrete 30-day window: a stored
timestamp of 2024-03-01T00:00:00+00:00 is not a duplicate when `now` is
exactly 30 days later, and is a duplicate one second earlier. -/
theorem c4_witness :
    should_skip cfgA c2snap c4state c4nowBoundary = Except.ok false ∧
    should_skip cfgA c2snap c4state c4nowInside = Except.ok true := by
  have H1 : (should_skip cfgA c2snap c4state c4nowBoundary = Except.ok true ↔
      c4nowBoundary.epoch - c4dt.epoch < cfgA.dedupDays * 86400) ∧
      (c4nowBoundary.epoch - c4dt.epoch = cfgA.dedupDays * 86400 →
        should_skip cfgA c2snap c4state c4nowBoundary = Except.ok false) ∧
      (c4nowBoundary.epoch - c4dt.epoch = cfgA.dedupDays * 86400 - 1 →
        should_skip cfgA c2snap c4state c4nowBoundary = Except.ok true) :=
    c4_dedup_window_boundary rfl (by decide) rfl rfl rfl
  have H2 : (should_skip cfgA c2snap c4state c4nowInside = Except.ok true ↔
      c4nowInside.epoch - c4dt.epoch < cfgA.dedupDays * 86400) ∧
      (c4nowInside.epoch - c4dt.epoch = cfgA.dedupDays * 86400 →
        should_skip cfgA c2snap c4state c4nowInside = Except.ok false) ∧
      (c4nowInside.epoch - c4dt.epoch = cfgA.dedupDays * 86400 - 1 →
        should_skip cfgA c2snap c4state c4nowInside = Except.ok true) :=
    c4_dedup_window_boundary rfl (by decide) rfl rfl rfl
  exact ⟨H1.2.1 (by decide), H2.2.2 (by decide)⟩

/-- C5, counterexample: with dedup enabled, a run over an empty snapshot
sequence marks zero records yet still writes the state file (the save
flag is true), contradicting "written only when at least one new record
was marked"; the mapping's contents, however, are unchanged. -/
theorem c5_counterexample :
    runMain cfgA [] [] c5state now0 =
      Except.ok ([], write_json_payload cfgA now0 [], c5state, true) := rfl

/-- C5 (amended): the dedup state is written at end-of-run exactly when
dedup is enabled and the window is positive — even when no new record was
marked; a run over an empty snapshot sequence produces zero Canonical
Export Records, a persisted document with `count = 0` and an empty items
sequence, and leaves the state mapping's contents unchanged. -/
theorem c5_empty_run_state_unchanged (cfg : Config) (cm : List (String × String))
    (st0 : Snap) (now : PyDatetime) :
    runMain cfg cm [] st0 now =
      Except.ok ([], write_json_payload cfg now [], st0,
        decide (cfg.dedupEnabled = true ∧ 0 < cfg.dedupDays)) ∧
    (write_json_payload cfg now []).count = 0 ∧
    (write_json_payload cfg now []).items = [] := by
  refine ⟨?_, rfl, rfl⟩
  by_cases hc : cfg.dedupEnabled = true ∧ 0 < cfg.dedupDays
  · rw [decide_eq_true hc]
    simp [runMain, gateFilter, normalize, mark_handled, hc]
  · rw [decide_eq_false hc]
    simp [runMain, gateFilter, normalize, hc]

/-- C6, counterexample: when the `last_checkpoint` slot holds a truthy
non-mapping, the `or` chain short-circuits on it and the non-empty
mapping in `latest_checkpoint` — a present, non-empty candidate (b) — is
never consulted: the extractor returns the empty mapping instead of that
candidate, contradicting first-non-empty-wins precedence. -/
theorem c6_counterexample :
    extract_last_checkpoint c6snap = [] ∧
    tGet c6snap "latest_checkpoint" = JVal.obj [("id", JVal.str "b")] := ⟨rfl, rfl⟩

/-- C6 (amended): provided the two direct checkpoint slots hold, when
truthy, mappings, `extract_last_checkpoint` returns the first non-empty
candidate in the fixed precedence order (a) `last_checkpoint`, then (b)
`latest_checkpoint`, then (c) the final element of `checkpoints`, and the
empty mapping when none exist; a truthy non-mapping in a direct slot
instead shadows the other direct slot (see the counterexample). -/
theorem c6_checkpoint_precedence (t : Snap)
    (hA : objOrFalsy (tGet t "last_checkpoint") = true)
    (hB : objOrFalsy (tGet t "latest_checkpoint") = true) :
    extract_last_checkpoint t = spec_first_nonempty t := by
  unfold extract_last_checkpoint spec_first_nonempty
  cases hbA : jvTruthy (tGet t "last_checkpoint") with
  | true =>
    obtain ⟨kvs, hk⟩ := isStr_obj_of hA hbA
    have hne : kvs.isEmpty = false := by
      rw [hk] at hbA
      simpa [jvTruthy] using hbA
    rw [hk]
    simp [jvOr, jvTruthy, hne, asNonemptyObj]
  | false =>
    have hAn : asNonemptyObj (tGet t "last_checkpoint") = none := asNonemptyObj_falsy hbA
    cases hbB : jvTruthy (tGet t "latest_checkpoint") with
    | true =>
      obtain ⟨kvs, hk⟩ := isStr_obj_of hB hbB
      have hne : kvs.isEmpty = false := by
        rw [hk] at hbB
        simpa [jvTruthy] using hbB
      rw [hk]
      rw [show jvOr (tGet t "last_checkpoint") (jvOr (JVal.obj kvs) (JVal.obj [])) =
          jvOr (JVal.obj kvs) (JVal.obj []) from by simp [jvOr, hbA]]
      rw [show jvOr (JVal.obj kvs) (JVal.obj []) = JVal.obj kvs from by
        simp [jvOr, jvTruthy, hne]]
      rw [hAn]
      simp [asNonemptyObj, hne]
    | false =>
      have hBn : asNonemptyObj (tGet t "latest_checkpoint") = none := asNonemptyObj_falsy hbB
      simp [jvOr, hbA, hbB, hAn, hBn, extractFromSeq_eq_spec_c]

/-- C6, witness: all three representations present at once — the
first-precedence candidate (a) wins, matching the spec-side selector. -/
theorem c6_witness :
    extract_last_checkpoint c6all = spec_first_nonempty c6all ∧
    spec_first_nonempty c6all = [("id", JVal.str "a")] :=
  ⟨c6_checkpoint_precedence c6all rfl rfl, rfl⟩

/-- C7 (confirmed): the two custom-fields representations — a direct
mapping and a sequence of name/value pairs — normalize to the same flat
string-to-string mapping on equivalent inputs; an entry lacking a usable
name is dropped without affecting the other entries; and a `null` (or
absent) value becomes the empty string. -/
theorem c7_custom_fields_normalization (ps : List (String × Option String))
    (pre post : List JVal) (bad : JVal) (k : String) (hbad : noUsableName bad = true) :
    get_all_custom_fields
        [("custom_fields", JVal.obj (ps.map fun p => (p.1, p.2.elim JVal.null JVal.str)))] =
      get_all_custom_fields
        [("custom_fields", JVal.list (ps.map fun p =>
          JVal.obj [("name", JVal.str p.1), ("value", p.2.elim JVal.null JVal.str)]))] ∧
    get_all_custom_fields [("custom_fields", JVal.list (pre ++ bad :: post))] =
      get_all_custom_fields [("custom_fields", JVal.list (pre ++ post))] ∧
    get_all_custom_fields [("custom_fields", JVal.obj [(k, JVal.null)])] = [(k, "")] := by
  refine ⟨?_, ?_, rfl⟩
  · exact cf_reps_agree ps []
  · show cfFromList (pre ++ bad :: post) [] = cfFromList (pre ++ post) []
    have he : pre ++ bad :: post = (pre ++ [bad]) ++ post := by simp
    rw [he, cfFromList_append, cfFromList_append, cfFromList_bad bad hbad, ← cfFromList_append]

/-- C7, witness: a concrete sequence entry without a name is dropped
while its neighbours are kept. -/
theorem c7_witness :
    get_all_custom_fields [("custom_fields", JVal.list
        [JVal.obj [("name", JVal.str "a"), ("value", JVal.str "1")],
         JVal.obj [("value", JVal.str "zzz")],
         JVal.obj [("name", JVal.str "b"), ("value", JVal.null)]])] =
      get_all_custom_fields [("custom_fields", JVal.list
        [JVal.obj [("name", JVal.str "a"), ("value", JVal.str "1")],
         JVal.obj [("name", JVal.str "b"), ("value", JVal.null)]])] :=
  (c7_custom_fields_normalization []
    [JVal.obj [("name", JVal.str "a"), ("value", JVal.str "1")]]
    [JVal.obj [("name", JVal.str "b"), ("value", JVal.null)]]
    (JVal.obj [("value", JVal.str "zzz")]) "x" rfl).2.1

/-- C8 (confirmed): for every snapshot whose top-level `order_id` is a
string or absent, the `order_id` of the record `normalize` produces is
the configured custom field's value when it is non-empty after trimming,
else the trimmed top-level `order_id` field, else the empty string —
exactly the spec-side resolution rule. -/
theorem c8_order_id_resolution {cfg : Config} {cm : List (String × String)} {t : Snap}
    {row : Row} (hord : strOrNull (tGet t "order_id"))
    (hrow : normalizeOne cfg cm t = Except.ok (some row)) :
    row.order_id = spec_order_id cfg t := by
  obtain ⟨-, hb⟩ := normalizeOne_ok_some hrow
  rw [buildRow_order_id hb]
  unfold spec_order_id
  by_cases hcf : pyStripStr (dictGetD (get_all_custom_fields t) cfg.orderIdField "") = ""
  · rw [if_pos hcf, if_pos hcf]
    rcases hord with h | ⟨s, h⟩
    · rw [h]
      rfl
    · rw [h]
      by_cases hs : s = ""
      · subst hs
        rfl
      · rw [show jvOr (JVal.str s) (JVal.str "") = JVal.str s from by
          simp [jvOr, jvTruthy, bne_iff_ne, hs]]
        rfl
  · rw [if_neg hcf, if_neg hcf]

/-- C8, witness: the resolution at a concrete snapshot whose configured
custom field is absent and whose top-level `order_id` is `" OID "`. -/
theorem c8_witness : c8row.order_id = spec_order_id cfgA c8snap :=
  c8_order_id_resolution (Or.inr ⟨" OID ", rfl⟩)
    (rfl : normalizeOne cfgA [] c8snap = Except.ok (some c8row))

/-- C9, counterexample: with an empty configured tag, the identity key of
a tag-less snapshot is `"UNKNOWN//"`, not the `"//"` that the claimed
format `{status_tag}/{carrier_slug}/{tracking_number}` (tag defaulting to
the configured tag) prescribes: the code has a third `or "UNKNOWN"`
fallback the claim omits. -/
theorem c9_counterexample :
    key_for_tracking cfgE [] = "UNKNOWN//" ∧ "UNKNOWN//" ≠ "//" := ⟨rfl, by decide⟩

/-- C9 (amended): for snapshots whose `tag`, `slug` and `tracking_number`
are strings or absent, the identity key is
`{status_tag}/{carrier_slug}/{tracking_number}` where the status tag
falls back to the configured tag when the snapshot's tag is absent or
empty, and to `"UNKNOWN"` when the configured tag is itself empty; slug
and tracking number default to the empty string. -/
theorem c9_identity_key_format (cfg : Config) (t : Snap)
    (h1 : strOrNull (tGet t "tag")) (h2 : strOrNull (tGet t "slug"))
    (h3 : strOrNull (tGet t "tracking_number")) :
    key_for_tracking cfg t = spec_identity_key cfg t := by
  unfold key_for_tracking spec_identity_key
  dsimp only
  rw [key_tag_part cfg _ h1, key_plain_part _ h2, key_plain_part _ h3]

/-- C9, witness: the amended format at a tag-less snapshot under the
empty configured tag, and at a fully-populated snapshot under the
default configuration. -/
theorem c9_witness :
    key_for_tracking cfgE c2snap = spec_identity_key cfgE c2snap ∧
    key_for_tracking cfgA c2snap = spec_identity_key cfgA c2snap :=
  ⟨c9_identity_key_format cfgE c2snap (Or.inl rfl) (Or.inr ⟨"ups", rfl⟩)
      (Or.inr ⟨"TN2", rfl⟩),
    c9_identity_key_format cfgA c2snap (Or.inl rfl) (Or.inr ⟨"ups", rfl⟩)
      (Or.inr ⟨"TN2", rfl⟩)⟩

/-- C10 (confirmed): when both direct checkpoint slots are empty or not
mappings and the `checkpoints` sequence is non-empty with a non-mapping
final element, `extract_last_checkpoint` returns the empty mapping; the
earlier elements of the sequence — well-formed or not — are never
consulted. -/
theorem c10_last_element_only {t : Snap} {cps : List JVal} {v : JVal}
    (hA : asNonemptyObj (tGet t "last_checkpoint") = none)
    (hB : asNonemptyObj (tGet t "latest_checkpoint") = none)
    (hc : tGet t "checkpoints" = JVal.list cps)
    (hlast : cps.getLast? = some v) (hv : v.isObj = false) :
    extract_last_checkpoint t = [] := by
  have hseq : extractFromSeq t = [] := by
    cases cps with
    | nil => simp at hlast
    | cons a rest =>
      unfold extractFromSeq
      rw [hc]
      simp only [show jvOr (JVal.list (a :: rest)) (JVal.list []) = JVal.list (a :: rest) from by
        simp [jvOr, jvTruthy], hlast]
      cases v with
      | obj kvs => simp [JVal.isObj] at hv
      | null => rfl
      | bool b => rfl
      | int n => rfl
      | str s2 => rfl
      | list l => rfl
  unfold extract_last_checkpoint
  cases hw : jvOr (tGet t "last_checkpoint") (jvOr (tGet t "latest_checkpoint") (JVal.obj [])) with
  | obj kvs =>
    have hnone : asNonemptyObj (JVal.obj kvs) = none := by
      rw [← hw]
      unfold jvOr
      split
      · exact hA
      · split
        · exact hB
        · rfl
    have hke : kvs.isEmpty = true := by
      by_cases hk2 : kvs.isEmpty = true
      · exact hk2
      · simp [asNonemptyObj, hk2] at hnone
    simp [hke, hseq]
  | null => exact hseq
  | bool b => exact hseq
  | int n => exact hseq
  | str s2 => exact hseq
  | list l => exact hseq

/-- C10, witness: a sequence whose first element is a well-formed
non-empty checkpoint mapping but whose final element is not a mapping
still yields the empty mapping. -/
theorem c10_witness : extract_last_checkpoint c10snap = [] :=
  c10_last_element_only rfl rfl rfl rfl rfl
